import Mathlib

/-!
Shallow embedding of the session state machine of `src/app.py` (a Streamlit
math-practice widget).  The external collaborators are modelled as explicit
inputs: the Question Source response is an `Except String String` (an
exception message, or the generated text), the Grading Oracle response is an
`Option String` (`none` models the call raising), and the History Sink write
is returned as an `Option (List String)` row (`some` means the background
save was triggered with that row).  Strings are handled through structural
helpers over `List Char` mirroring the Python string operations used by the
code (`strip`, `upper`, slicing, `in`, `split`).
-/

namespace MathTest

/-- Python `needle` being a prefix of `hay`, on character lists. -/
def strHasPfx : List Char → List Char → Bool
  | [], _ => true
  | _ :: _, [] => false
  | a :: as, b :: bs => a == b && strHasPfx as bs

/-- Python substring containment on character lists (`needle in hay`). -/
def charsHasSub (needle : List Char) : List Char → Bool
  | [] => needle.isEmpty
  | c :: t => strHasPfx needle (c :: t) || charsHasSub needle t

/-- Python `needle in hay` for strings. -/
def strHasSub (hay needle : String) : Bool := charsHasSub needle.toList hay.toList

/-- Python `str.strip()`: remove leading and trailing whitespace. -/
def strTrim (s : String) : String :=
  ⟨((s.data.dropWhile Char.isWhitespace).reverse.dropWhile Char.isWhitespace).reverse⟩

/-- Python `str.upper()` (on the ASCII letters the app deals with). -/
def strUpper (s : String) : String := ⟨s.data.map Char.toUpper⟩

/-- Python slicing `s[:n]`: the first `n` characters of `s`. -/
def strTake (n : Nat) (s : String) : String := ⟨s.data.take n⟩

/-- Split at the first occurrence of `sep`: `some (before, after)`, or
`none` when `sep` does not occur.  Mirrors how Python `text.split(sep)`
peels off one field at a time. -/
def splitFirst (sep : List Char) : List Char → Option (List Char × List Char)
  | [] => none
  | c :: rest =>
    if strHasPfx sep (c :: rest) then some ([], (c :: rest).drop sep.length)
    else
      match splitFirst sep rest with
      | some (pre, post) => some (c :: pre, post)
      | none => none

/-- One row of the in-memory history table appended by `check_answer`
(`Q#`, `Topic`, `Difficulty`, `Result`). -/
structure Attempt where
  qNum : Nat
  topic : String
  difficulty : String
  result : String
deriving DecidableEq

/-- The `st.session_state` fields owned by the state machine in
`src/app.py` (lines 200-214 initialize them; `answer_text` and
`reveal_answer` are first written by `get_new_question`, modelled here with
the neutral initial values `""` and `false`). -/
structure SessionState where
  question_text : String
  answer_text : String
  user_input : String
  feedback : String
  is_finished : Bool
  score_correct : Nat
  question_count : Nat
  history_list : List Attempt
  last_logged : String
  reveal_answer : Bool
  opt_topic : String
  opt_grade : String
  user_name_input : String
deriving DecidableEq

/-- `get_current_difficulty` of `src/app.py` lines 56-59. -/
def get_current_difficulty (q_number : Nat) : String :=
  if q_number ≤ 7 then ("Easy (Foundation)")
  else if q_number ≤ 15 then ("Medium (Crossover)")
  else ("Hard (Higher)")

/-- The dedup signature of `src/app.py` line 164:
`f"{st.session_state.question_count}-{question[:10]}"`. -/
def dedupKey (s : SessionState) : String :=
  Nat.repr s.question_count ++ "-" ++ strTake 10 s.question_text

/-- Outcome of Python `q, a = text.split("|||")` inside the `try` block of
`get_new_question`: a two-field payload, the whole text when the delimiter
is absent (`"|||" in text` is false), or a `ValueError` when the delimiter
occurs more than once (three or more fields cannot be unpacked into two). -/
inductive ParseResult where
  | parsed (q a : String)
  | unparsed (text : String)
  | unpackError
deriving DecidableEq

/-- The response parsing of `src/app.py` lines 112-118 (with the implicit
`ValueError` of tuple unpacking caught by the surrounding `except`). -/
def parseResponse (text : String) : ParseResult :=
  match splitFirst (['|', '|', '|']) text.data with
  | none => ParseResult.unparsed text
  | some (q, rest) =>
    match splitFirst (['|', '|', '|']) rest with
    | none => ParseResult.parsed (strTrim ⟨q⟩) (strTrim ⟨rest⟩)
    | some _ => ParseResult.unpackError

/-- `get_new_question` of `src/app.py` lines 74-125.  `src` is what the
Question Source call (`model.generate_content`) would produce if invoked:
`Except.error msg` models the call raising.  Result: the new state, whether
the Question Source was invoked, and the `st.error` message if one was
shown. -/
def get_new_question (s : SessionState) (src : Except String String) :
    SessionState × Bool × Option String :=
  if 25 < s.question_count then
    ({ s with question_text := "🎉 You have completed all 25 questions! Great job.",
              is_finished := true }, false, none)
  else
    match src with
    | Except.error e => (s, true, some ("Error generating question: " ++ e))
    | Except.ok text =>
      match parseResponse text with
      | ParseResult.parsed q a =>
          ({ s with question_text := q, answer_text := a,
                    reveal_answer := false, feedback := "", user_input := "" },
           true, none)
      | ParseResult.unparsed t =>
          ({ s with question_text := t, answer_text := "Error parsing answer.",
                    reveal_answer := false, feedback := "", user_input := "" },
           true, none)
      | ParseResult.unpackError =>
          (s, true, some ("Error generating question: too many values to unpack (expected 2)"))

/-- The grading policy of `src/app.py` lines 136-155: exact trimmed match
short-circuits to correct; otherwise the Grading Oracle is consulted and
its reply parsed with `"CORRECT" in response.text.strip().upper()`; a
raising oracle call (`oracle = none`) falls to `is_correct = False`.
Returns `(is_correct, oracle invoked)`. -/
def gradeLocal (user_ans correct_ans : String) (oracle : Option String) : Bool × Bool :=
  if strTrim user_ans = strTrim correct_ans then (true, false)
  else
    match oracle with
    | some resp => (strHasSub (strUpper (strTrim resp)) ("CORRECT"), true)
    | none => (false, true)

/-- `check_answer` of `src/app.py` lines 127-193.  `oracle` is what the
Grading Oracle would reply if invoked (`none` models the call raising),
`now` stands for the formatted timestamp.  Result: the new state, whether
the oracle was invoked, and the row handed to `trigger_background_save`
(the History Sink write), if any. -/
def check_answer (s : SessionState) (oracle : Option String) (now : String) :
    SessionState × Bool × Option (List String) :=
  if s.user_input = "" then
    ({ s with feedback := "Please enter an answer first." }, false, none)
  else
    let g := gradeLocal s.user_input s.answer_text oracle
    let s1 :=
      if g.1 then
        { s with feedback := "✅ Correct!", score_correct := s.score_correct + 1 }
      else
        { s with feedback := "❌ Incorrect. The answer was: " ++ s.answer_text }
    let sig := dedupKey s
    if s.last_logged ≠ sig then
      let status := if g.1 then ("Correct") else ("Incorrect")
      let diff := get_current_difficulty s.question_count
      ({ s1 with
          history_list := s1.history_list ++
            [{ qNum := s.question_count, topic := s.opt_topic,
               difficulty := diff, result := status }],
          last_logged := sig,
          reveal_answer := true },
       g.2,
       some ([now, s.user_name_input, s.opt_grade, s.opt_topic, diff,
              s.question_text, s.user_input, status]))
    else
      (s1, g.2, none)

/-- `next_question_handler` of `src/app.py` lines 195-197, keeping the
effect outputs of the embedded `get_new_question`. -/
def nextStepFull (s : SessionState) (src : Except String String) :
    SessionState × Bool × Option String :=
  get_new_question { s with question_count := s.question_count + 1 } src

/-- The `Restart Session` handler of `src/app.py` lines 244-250, keeping
the effect outputs of the embedded `get_new_question`.  Note that
`last_logged` is not among the fields the handler resets. -/
def restartStepFull (s : SessionState) (src : Except String String) :
    SessionState × Bool × Option String :=
  get_new_question { s with score_correct := 0, question_count := 1,
                            history_list := [], is_finished := false } src

/-- A topic/grade selectbox `on_change` firing `get_new_question`
(`src/app.py` lines 230, 242). -/
def paramStepFull (s : SessionState) (topic grade : String)
    (src : Except String String) : SessionState × Bool × Option String :=
  get_new_question { s with opt_topic := topic, opt_grade := grade } src

/-- Submitting the answer `input`: the text widget stores it in
`user_input`, then the `Submit Answer` button runs `check_answer`. -/
def submitStepFull (s : SessionState) (input : String) (oracle : Option String)
    (now : String) : SessionState × Bool × Option (List String) :=
  check_answer { s with user_input := input } oracle now

/-- The state before the initial `get_new_question` (`src/app.py` lines
200-213, with the default widget value of `user_name_input`). -/
def baseState : SessionState :=
  { question_text := "", answer_text := "", user_input := "", feedback := "",
    is_finished := false, score_correct := 0, question_count := 1,
    history_list := [], last_logged := "", reveal_answer := false,
    opt_topic := "Place Value & Rounding", opt_grade := "Year 7 (KS3)",
    user_name_input := "Student" }

/-- The session right after first load: the init block followed by the
initial `get_new_question` call with source outcome `src`. -/
def initState (src : Except String String) : SessionState :=
  (get_new_question baseState src).1

/-- A user-triggered operation of the state machine, with the responses the
external services would give during it. -/
inductive Action where
  | submit (input : String) (oracle : Option String) (now : String)
  | next (src : Except String String)
  | restart (src : Except String String)
  | paramChange (topic grade : String) (src : Except String String)

/-- One operation of the state machine.  The `Submit Answer` and
`Next Question` buttons are only rendered while the session is not finished
(`src/app.py` line 255), so those actions leave a finished session
unchanged; the sidebar restart button and the selectboxes are always
rendered. -/
def step (s : SessionState) : Action → SessionState
  | Action.submit input oracle now =>
      if s.is_finished then s else (submitStepFull s input oracle now).1
  | Action.next src => if s.is_finished then s else (nextStepFull s src).1
  | Action.restart src => (restartStepFull s src).1
  | Action.paramChange topic grade src => (paramStepFull s topic grade src).1

/-- Run a list of operations from a state. -/
def run (s : SessionState) : List Action → SessionState
  | [] => s
  | a :: rest => run (step s a) rest

/-- Number of submit operations in a trace. -/
def numSubmits : List Action → Nat
  | [] => 0
  | Action.submit _ _ _ :: rest => numSubmits rest + 1
  | _ :: rest => numSubmits rest

/-- Run a list of submissions (input, oracle reply, timestamp) from a
state; also counts the History Sink writes triggered. -/
def submitMany (s : SessionState) :
    List (String × Option String × String) → SessionState × Nat
  | [] => (s, 0)
  | p :: rest =>
    let r := submitStepFull s p.1 p.2.1 p.2.2
    let rr := submitMany r.1 rest
    (rr.1, (if (r.2.2).isSome then 1 else 0) + rr.2)

/-- The state-shape invariant of the spec: the question counter stays in
`[1, 26]` and `is_finished` tracks `25 < question_count`. -/
def sessionInv (s : SessionState) : Prop :=
  1 ≤ s.question_count ∧ s.question_count ≤ 26 ∧
    (s.is_finished = true ↔ 25 < s.question_count)

/-- A session sitting at question 1 (reference answer 7, student answer 8
pending). -/
def c1State : SessionState :=
  { baseState with question_text := "What is 3+4?", answer_text := "7" }

/-- The session after first load when the Question Source response lacked
the `|||` delimiter. -/
def c2State : SessionState :=
  (get_new_question baseState (Except.ok ("What is 2+2?"))).1

/-- Question Source outcome for the score counterexample. -/
def c4CexSrc : Except String String := Except.ok ("What is 6*7?|||42")

/-- Two exact-match submissions of question 1. -/
def c4CexTrace : List Action :=
  [Action.submit ("42") none ("t1"), Action.submit ("42") none ("t2")]

/-- A session that has logged one attempt on question 1. -/
def c10Pre : SessionState :=
  run (initState (Except.ok ("What is 6 times 7?|||42")))
    [Action.submit ("40") (some ("MAYBE")) ("t1")]

/-- The same session after Restart, where the regenerated question 1
shares its first 10 characters with the old question 1. -/
def c10Post : SessionState :=
  (restartStepFull c10Pre (Except.ok ("What is 6 plus 8?|||14"))).1

theorem gnq_question_count (s : SessionState) (src : Except String String) :
    (get_new_question s src).1.question_count = s.question_count := by
  unfold get_new_question
  split
  · rfl
  · cases src with
    | error e => rfl
    | ok text =>
      simp only
      split <;> rfl

theorem gnq_score (s : SessionState) (src : Except String String) :
    (get_new_question s src).1.score_correct = s.score_correct := by
  unfold get_new_question
  split
  · rfl
  · cases src with
    | error e => rfl
    | ok text =>
      simp only
      split <;> rfl

theorem gnq_last_logged (s : SessionState) (src : Except String String) :
    (get_new_question s src).1.last_logged = s.last_logged := by
  unfold get_new_question
  split
  · rfl
  · cases src with
    | error e => rfl
    | ok text =>
      simp only
      split <;> rfl

theorem gnq_history (s : SessionState) (src : Except String String) :
    (get_new_question s src).1.history_list = s.history_list := by
  unfold get_new_question
  split
  · rfl
  · cases src with
    | error e => rfl
    | ok text =>
      simp only
      split <;> rfl

theorem gnq_finished (s : SessionState) (src : Except String String) :
    (get_new_question s src).1.is_finished =
      (if 25 < s.question_count then true else s.is_finished) := by
  unfold get_new_question
  split
  · rfl
  · cases src with
    | error e => rfl
    | ok text =>
      simp only
      split <;> rfl

theorem gnq_invoked (s : SessionState) (src : Except String String)
    (h : s.question_count ≤ 25) : (get_new_question s src).2.1 = true := by
  unfold get_new_question
  rw [if_neg (by omega)]
  cases src with
  | error e => rfl
  | ok text =>
    simp only
    split <;> rfl

theorem ca_question_count (s : SessionState) (oracle : Option String) (now : String) :
    (check_answer s oracle now).1.question_count = s.question_count := by
  unfold check_answer
  split
  · rfl
  · simp only
    split <;> split <;> rfl

theorem ca_question_text (s : SessionState) (oracle : Option String) (now : String) :
    (check_answer s oracle now).1.question_text = s.question_text := by
  unfold check_answer
  split
  · rfl
  · simp only
    split <;> split <;> rfl

theorem ca_finished (s : SessionState) (oracle : Option String) (now : String) :
    (check_answer s oracle now).1.is_finished = s.is_finished := by
  unfold check_answer
  split
  · rfl
  · simp only
    split <;> split <;> rfl

theorem ca_score_le (s : SessionState) (oracle : Option String) (now : String) :
    (check_answer s oracle now).1.score_correct ≤ s.score_correct + 1 := by
  unfold check_answer
  split
  · exact Nat.le_succ_of_le (Nat.le_refl _)
  · simp only
    split <;> split <;> simp

theorem ca_key (s : SessionState) (oracle : Option String) (now : String) :
    dedupKey (check_answer s oracle now).1 = dedupKey s := by
  unfold dedupKey
  rw [ca_question_count, ca_question_text]

theorem ca_skip (s : SessionState) (oracle : Option String) (now : String)
    (h : s.last_logged = dedupKey s) :
    (check_answer s oracle now).1.last_logged = s.last_logged ∧
      (check_answer s oracle now).1.history_list = s.history_list ∧
      (check_answer s oracle now).2.2 = none := by
  unfold check_answer
  split
  · exact ⟨rfl, rfl, rfl⟩
  · simp only
    rw [if_neg (by simpa using h)]
    refine ⟨?_, ?_, rfl⟩ <;> split <;> rfl

theorem ca_cases (s : SessionState) (oracle : Option String) (now : String) :
    ((check_answer s oracle now).1.last_logged = s.last_logged ∧
      (check_answer s oracle now).1.history_list = s.history_list ∧
      (check_answer s oracle now).2.2 = none) ∨
    ((check_answer s oracle now).1.last_logged = dedupKey s ∧
      (check_answer s oracle now).1.history_list.length = s.history_list.length + 1 ∧
      (check_answer s oracle now).2.2.isSome = true) := by
  unfold check_answer
  split
  · exact Or.inl ⟨rfl, rfl, rfl⟩
  · simp only
    split
    · refine Or.inr ⟨rfl, ?_, rfl⟩
      split <;> simp
    · refine Or.inl ⟨?_, ?_, rfl⟩ <;> split <;> rfl

theorem submit_key (s : SessionState) (input : String) (oracle : Option String)
    (now : String) :
    dedupKey (submitStepFull s input oracle now).1 = dedupKey s := by
  unfold submitStepFull
  rw [ca_key]
  rfl

theorem submitMany_key (l : List (String × Option String × String))
    (s : SessionState) : dedupKey (submitMany s l).1 = dedupKey s := by
  induction l generalizing s with
  | nil => rfl
  | cons p rest ih =>
    show dedupKey (submitMany (submitStepFull s p.1 p.2.1 p.2.2).1 rest).1 = dedupKey s
    rw [ih, submit_key]

theorem submitMany_logged (l : List (String × Option String × String))
    (s : SessionState) (h : s.last_logged = dedupKey s) :
    (submitMany s l).2 = 0 ∧ (submitMany s l).1.history_list = s.history_list := by
  induction l generalizing s with
  | nil => exact ⟨rfl, rfl⟩
  | cons p rest ih =>
    have hkey : dedupKey { s with user_input := p.1 } = dedupKey s := rfl
    have hs : ({ s with user_input := p.1 } : SessionState).last_logged =
        dedupKey { s with user_input := p.1 } := by rw [hkey]; exact h
    have hc := ca_skip { s with user_input := p.1 } p.2.1 p.2.2 hs
    have h2 : (submitStepFull s p.1 p.2.1 p.2.2).1.last_logged =
        dedupKey (submitStepFull s p.1 p.2.1 p.2.2).1 := by
      rw [submit_key]
      exact hc.1.trans h
    have ihr := ih (submitStepFull s p.1 p.2.1 p.2.2).1 h2
    refine ⟨?_, ?_⟩
    · show (if (submitStepFull s p.1 p.2.1 p.2.2).2.2.isSome then 1 else 0) +
        (submitMany (submitStepFull s p.1 p.2.1 p.2.2).1 rest).2 = 0
      have hrow : (submitStepFull s p.1 p.2.1 p.2.2).2.2 = none := hc.2.2
      rw [ihr.1, hrow]
      rfl
    · show (submitMany (submitStepFull s p.1 p.2.1 p.2.2).1 rest).1.history_list =
        s.history_list
      rw [ihr.2]
      exact hc.2.1

theorem submitMany_dedup (l : List (String × Option String × String))
    (s : SessionState) :
    (submitMany s l).2 ≤ 1 ∧
      (submitMany s l).1.history_list.length ≤ s.history_list.length + 1 := by
  induction l generalizing s with
  | nil => exact ⟨Nat.zero_le 1, Nat.le_succ_of_le (Nat.le_refl _)⟩
  | cons p rest ih =>
    have hc := ca_cases { s with user_input := p.1 } p.2.1 p.2.2
    rcases hc with ⟨hll, hh, hrow⟩ | ⟨hll, hh, hrow⟩
    · have ihr := ih (submitStepFull s p.1 p.2.1 p.2.2).1
      constructor
      · show (if (submitStepFull s p.1 p.2.1 p.2.2).2.2.isSome then 1 else 0) +
          (submitMany (submitStepFull s p.1 p.2.1 p.2.2).1 rest).2 ≤ 1
        have : (submitStepFull s p.1 p.2.1 p.2.2).2.2 = none := hrow
        rw [this]
        simpa using ihr.1
      · show (submitMany (submitStepFull s p.1 p.2.1 p.2.2).1 rest).1.history_list.length ≤
          s.history_list.length + 1
        have hlen : (submitStepFull s p.1 p.2.1 p.2.2).1.history_list = s.history_list := hh
        calc (submitMany (submitStepFull s p.1 p.2.1 p.2.2).1 rest).1.history_list.length
            ≤ (submitStepFull s p.1 p.2.1 p.2.2).1.history_list.length + 1 := ihr.2
          _ = s.history_list.length + 1 := by rw [hlen]
    · have h2 : (submitStepFull s p.1 p.2.1 p.2.2).1.last_logged =
          dedupKey (submitStepFull s p.1 p.2.1 p.2.2).1 := by
        rw [submit_key]
        exact hll
      have hrest := submitMany_logged rest (submitStepFull s p.1 p.2.1 p.2.2).1 h2
      constructor
      · show (if (submitStepFull s p.1 p.2.1 p.2.2).2.2.isSome then 1 else 0) +
          (submitMany (submitStepFull s p.1 p.2.1 p.2.2).1 rest).2 ≤ 1
        have hrow2 : (submitStepFull s p.1 p.2.1 p.2.2).2.2.isSome = true := hrow
        rw [hrest.1, hrow2]
        simp
      · show (submitMany (submitStepFull s p.1 p.2.1 p.2.2).1 rest).1.history_list.length ≤
          s.history_list.length + 1
        rw [hrest.2]
        exact Nat.le_of_eq hh

theorem step_inv (s : SessionState) (a : Action) (h : sessionInv s) :
    sessionInv (step s a) := by
  obtain ⟨h1, h2, h3⟩ := h
  cases a with
  | submit input oracle now =>
    simp only [step]
    split
    · exact ⟨h1, h2, h3⟩
    · have hc : (submitStepFull s input oracle now).1.question_count =
          s.question_count := ca_question_count _ _ _
      have hf : (submitStepFull s input oracle now).1.is_finished =
          s.is_finished := ca_finished _ _ _
      exact ⟨by rw [hc]; exact h1, by rw [hc]; exact h2, by rw [hc, hf]; exact h3⟩
  | next src =>
    simp only [step]
    split
    · exact ⟨h1, h2, h3⟩
    · next hnf =>
      have hle : s.question_count ≤ 25 := by
        by_contra hgt
        exact hnf (h3.mpr (by omega))
      have hc : ((nextStepFull s src).1.question_count) = s.question_count + 1 :=
        gnq_question_count _ _
      have hf : (nextStepFull s src).1.is_finished =
          (if 25 < s.question_count + 1 then true else s.is_finished) :=
        gnq_finished _ _
      refine ⟨by omega, by omega, ?_⟩
      rw [hc, hf]
      by_cases hx : 25 < s.question_count + 1
      · rw [if_pos hx]
        exact ⟨fun _ => hx, fun _ => rfl⟩
      · rw [if_neg hx]
        constructor
        · intro hfin
          exact absurd (h3.mp hfin) (by omega)
        · intro hgt
          omega
  | restart src =>
    simp only [step]
    have hc : ((restartStepFull s src).1.question_count) = 1 :=
      gnq_question_count _ _
    have hf : (restartStepFull s src).1.is_finished =
        (if 25 < (1 : Nat) then true else false) := gnq_finished _ _
    refine ⟨by omega, by omega, ?_⟩
    rw [hc, hf]
    simp
  | paramChange topic grade src =>
    simp only [step]
    have hc : ((paramStepFull s topic grade src).1.question_count) =
        s.question_count := gnq_question_count _ _
    have hf : (paramStepFull s topic grade src).1.is_finished =
        (if 25 < s.question_count then true else s.is_finished) := gnq_finished _ _
    refine ⟨by omega, by omega, ?_⟩
    rw [hc, hf]
    by_cases hx : 25 < s.question_count
    · rw [if_pos hx]
      exact ⟨fun _ => hx, fun _ => rfl⟩
    · rw [if_neg hx]
      exact h3

theorem step_score (s : SessionState) (a : Action) :
    (step s a).score_correct ≤ s.score_correct + numSubmits [a] := by
  cases a with
  | submit input oracle now =>
    simp only [step, numSubmits]
    split
    · omega
    · have hsc : (submitStepFull s input oracle now).1.score_correct ≤
          s.score_correct + 1 := ca_score_le _ _ _
      omega
  | next src =>
    simp only [step, numSubmits]
    split
    · omega
    · have hs : ((nextStepFull s src).1.score_correct) = s.score_correct :=
        gnq_score _ _
      omega
  | restart src =>
    simp only [step, numSubmits]
    have hs : ((restartStepFull s src).1.score_correct) = 0 := gnq_score _ _
    omega
  | paramChange topic grade src =>
    simp only [step, numSubmits]
    have hs : ((paramStepFull s topic grade src).1.score_correct) =
        s.score_correct := gnq_score _ _
    omega

theorem numSubmits_cons (a : Action) (l : List Action) :
    numSubmits (a :: l) = numSubmits [a] + numSubmits l := by
  cases a with
  | submit input oracle now =>
    simp only [numSubmits]
    omega
  | next src =>
    simp only [numSubmits]
    omega
  | restart src =>
    simp only [numSubmits]
    omega
  | paramChange topic grade src =>
    simp only [numSubmits]
    omega

theorem run_inv (l : List Action) (s : SessionState) (h : sessionInv s) :
    sessionInv (run s l) ∧
      (run s l).score_correct ≤ s.score_correct + numSubmits l := by
  induction l generalizing s with
  | nil => exact ⟨h, Nat.le_refl _⟩
  | cons a rest ih =>
    have hstep := step_inv s a h
    have hsc := step_score s a
    have ihr := ih (step s a) hstep
    refine ⟨ihr.1, ?_⟩
    show (run (step s a) rest).score_correct ≤ _
    rw [numSubmits_cons]
    omega

theorem initState_inv (src : Except String String) : sessionInv (initState src) := by
  have hc : (initState src).question_count = 1 := gnq_question_count baseState src
  have hf : (initState src).is_finished = (if 25 < (1 : Nat) then true else false) :=
    gnq_finished baseState src
  refine ⟨by omega, by omega, ?_⟩
  rw [hc, hf]
  simp

theorem initState_score (src : Except String String) :
    (initState src).score_correct = 0 := gnq_score baseState src

/-- Exact-match grading inside `check_answer`: the oracle is skipped and
the answer marked correct. -/
theorem ca_exact (s : SessionState) (oracle : Option String) (now : String)
    (h1 : ¬ s.user_input = "") (h2 : strTrim s.user_input = strTrim s.answer_text) :
    (check_answer s oracle now).2.1 = false ∧
    (check_answer s oracle now).1.feedback = "✅ Correct!" ∧
    (check_answer s oracle now).1.score_correct = s.score_correct + 1 := by
  have hg : gradeLocal s.user_input s.answer_text oracle = (true, false) := by
    unfold gradeLocal
    rw [if_pos h2]
  unfold check_answer
  rw [if_neg h1, hg]
  simp only
  split
  · exact ⟨rfl, rfl, rfl⟩
  · exact ⟨rfl, rfl, rfl⟩

/-- C1 (code evidence): the grading reply parser of `check_answer` is the
single substring test `"CORRECT" in response.text.strip().upper()`; since
the token `INCORRECT` contains `CORRECT`, an oracle reply carrying
`INCORRECT` is resolved to Correct (feedback `✅ Correct!` and a score
increment), contradicting the claim that `INCORRECT` is checked first and
resolves to Incorrect. -/
theorem c1_incorrect_reply_marks_correct :
    strHasSub (strUpper (strTrim ("The answer is INCORRECT because 3+4 is 7")))
        ("CORRECT") = true ∧
    (submitStepFull c1State ("8")
        (some ("The answer is INCORRECT because 3+4 is 7")) ("t1")).1.feedback =
      "✅ Correct!" ∧
    (submitStepFull c1State ("8")
        (some ("The answer is INCORRECT because 3+4 is 7")) ("t1")).1.score_correct = 1 :=
  ⟨rfl, rfl, rfl⟩

/-- C2 (code evidence): after a Question Source response without the `|||`
delimiter, `get_new_question` stores the sentinel `Error parsing answer.`
as the reference answer, but `check_answer` has no ungradeable
short-circuit: a student answer equal to the sentinel is compared against
it and graded Correct, and any other answer invokes the Grading Oracle
with the sentinel as the reference answer. -/
theorem c2_sentinel_is_compared :
    c2State.question_text = "What is 2+2?" ∧
    c2State.answer_text = "Error parsing answer." ∧
    (submitStepFull c2State ("Error parsing answer.") none ("t1")).1.feedback =
      "✅ Correct!" ∧
    (submitStepFull c2State ("Error parsing answer.") none ("t1")).1.score_correct = 1 ∧
    (submitStepFull c2State ("4") (some ("INCORRECT")) ("t1")).2.1 = true :=
  ⟨rfl, rfl, rfl, rfl, rfl⟩

/-- C3: from any session state, any number of consecutive submissions of
the current question (the dedup key, built from the question counter and
the first 10 characters of the question text, is unchanged throughout)
appends at most one Attempt to the in-memory history and triggers at most
one History Sink write, regardless of inputs and oracle verdicts. -/
theorem c3_submit_dedup (s : SessionState)
    (l : List (String × Option String × String)) :
    (submitMany s l).2 ≤ 1 ∧
      (submitMany s l).1.history_list.length ≤ s.history_list.length + 1 ∧
      dedupKey (submitMany s l).1 = dedupKey s :=
  ⟨(submitMany_dedup l s).1, (submitMany_dedup l s).2, submitMany_key l s⟩

/-- C4 (counterexample): submitting the exact answer to question 1 twice
increments the score twice (the dedup guard covers only logging, not the
score), so `scoreCorrect ≤ questionIndex - 1` fails: the state reached has
score 2 at question index 1. -/
theorem c4_counterexample :
    ¬ ((run (initState c4CexSrc) c4CexTrace).score_correct ≤
        (run (initState c4CexSrc) c4CexTrace).question_count - 1) := by
  have h1 : (run (initState c4CexSrc) c4CexTrace).score_correct = 2 := rfl
  have h2 : (run (initState c4CexSrc) c4CexTrace).question_count = 1 := rfl
  omega

/-- C4 (amended): after every sequence of operations from first load,
`1 ≤ questionIndex ≤ 26`, and `isFinished` holds iff
`questionIndex > 25`; the score is bounded by the number of submit
operations performed, not by `questionIndex - 1` (re-submitting the same
question re-increments the score). -/
theorem c4_amended_invariants (src : Except String String) (tr : List Action) :
    1 ≤ (run (initState src) tr).question_count ∧
    (run (initState src) tr).question_count ≤ 26 ∧
    ((run (initState src) tr).is_finished = true ↔
      25 < (run (initState src) tr).question_count) ∧
    (run (initState src) tr).score_correct ≤ numSubmits tr := by
  obtain ⟨⟨a, b, c⟩, d⟩ := run_inv tr (initState src) (initState_inv src)
  rw [initState_score src] at d
  exact ⟨a, b, c, by omega⟩

/-- C5: a non-empty student answer whose trimmed text equals the trimmed
reference answer is graded Correct (feedback `✅ Correct!`, score
incremented by one) without invoking the Grading Oracle. -/
theorem c5_exact_match (s : SessionState) (oracle : Option String)
    (input now : String) (h1 : ¬ input = "")
    (h2 : strTrim input = strTrim s.answer_text) :
    (submitStepFull s input oracle now).2.1 = false ∧
    (submitStepFull s input oracle now).1.feedback = "✅ Correct!" ∧
    (submitStepFull s input oracle now).1.score_correct = s.score_correct + 1 :=
  ca_exact { s with user_input := input } oracle now h1 h2

/-- C5 witness: submitting the exact reference answer `42` is graded
Correct without consulting the oracle. -/
theorem c5_witness :
    (submitStepFull { baseState with answer_text := "42" } ("42") none ("t1")).2.1 =
      false ∧
    (submitStepFull { baseState with answer_text := "42" } ("42") none ("t1")).1.feedback =
      "✅ Correct!" ∧
    (submitStepFull { baseState with answer_text := "42" } ("42") none ("t1")).1.score_correct =
      ({ baseState with answer_text := "42" } : SessionState).score_correct + 1 :=
  c5_exact_match { baseState with answer_text := "42" } none ("42") ("t1")
    (by decide) rfl

/-- C6: with the question counter past 25, `get_new_question` only sets the
terminal message and `is_finished`, and does not invoke the Question
Source (second component `false`) whatever the source would have
returned. -/
theorem c6_finished_no_source (s : SessionState) (src : Except String String)
    (h : 25 < s.question_count) :
    get_new_question s src =
      ({ s with question_text := "🎉 You have completed all 25 questions! Great job.",
                is_finished := true }, false, none) := by
  unfold get_new_question
  rw [if_pos h]

/-- C6 witness: advancing at question index 26 yields the finished state
without a Question Source call. -/
theorem c6_witness :
    get_new_question { baseState with question_count := 26 }
        (Except.ok ("Q|||A")) =
      ({ baseState with
          question_count := 26,
          question_text := "🎉 You have completed all 25 questions! Great job.",
          is_finished := true }, false, none) :=
  c6_finished_no_source { baseState with question_count := 26 }
    (Except.ok ("Q|||A")) (by decide)

/-- C7: when the Question Source call raises during advancement (the
counter is within range, so the call is made), the session state is left
entirely unchanged -- question text, reference answer and question counter
included -- and the failure is surfaced as a reported error message rather
than an uncaught fault. -/
theorem c7_source_failure (s : SessionState) (msg : String)
    (h : s.question_count ≤ 25) :
    get_new_question s (Except.error msg) =
      (s, true, some ("Error generating question: " ++ msg)) := by
  unfold get_new_question
  rw [if_neg (by omega)]

/-- C7 witness: a failing source call on first load leaves the base state
unchanged and reports the error. -/
theorem c7_witness :
    get_new_question baseState (Except.error ("network down")) =
      (baseState, true, some ("Error generating question: " ++ "network down")) :=
  c7_source_failure baseState ("network down") (by decide)

/-- C8: Restart, from any state (finished or not), resets the question
counter to 1 and the score to 0, clears the history list, clears
`is_finished`, and triggers advancement for index 1 (the Question Source
is invoked, second component `true`). -/
theorem c8_restart (s : SessionState) (src : Except String String) :
    (restartStepFull s src).1.question_count = 1 ∧
    (restartStepFull s src).1.score_correct = 0 ∧
    (restartStepFull s src).1.history_list = [] ∧
    (restartStepFull s src).1.is_finished = false ∧
    (restartStepFull s src).2.1 = true := by
  refine ⟨gnq_question_count _ _, gnq_score _ _, ?_, ?_, ?_⟩
  · exact gnq_history _ _
  · have hf := gnq_finished { s with
      score_correct := 0, question_count := 1,
      history_list := [], is_finished := false } src
    simpa using hf
  · exact gnq_invoked _ _ (show (1 : Nat) ≤ 25 by omega)

/-- C9: the difficulty tier is a pure total function of the question
index: indices 1-7 map to Easy, 8-15 to Medium, 16-25 to Hard. -/
theorem c9_tier_bands (n : Nat) :
    (1 ≤ n → n ≤ 7 → get_current_difficulty n = "Easy (Foundation)") ∧
    (8 ≤ n → n ≤ 15 → get_current_difficulty n = "Medium (Crossover)") ∧
    (16 ≤ n → n ≤ 25 → get_current_difficulty n = "Hard (Higher)") := by
  unfold get_current_difficulty
  refine ⟨?_, ?_, ?_⟩
  · intro _ hb
    rw [if_pos hb]
  · intro ha hb
    rw [if_neg (by omega), if_pos hb]
  · intro ha _
    rw [if_neg (by omega), if_neg (by omega)]

/-- C9 witness: the tier function evaluated inside each band. -/
theorem c9_witness :
    get_current_difficulty 3 = "Easy (Foundation)" ∧
    get_current_difficulty 10 = "Medium (Crossover)" ∧
    get_current_difficulty 20 = "Hard (Higher)" :=
  ⟨(c9_tier_bands 3).1 (by decide) (by decide),
   (c9_tier_bands 10).2.1 (by decide) (by decide),
   (c9_tier_bands 20).2.2 (by decide) (by decide)⟩

/-- C10: the Restart handler resets the counter, score, history and
finished flag but leaves `last_logged` untouched; consequently in a
session whose pre-restart attempt was logged for question 1 and whose
regenerated question 1 shares its first 10 characters with the old one,
the first post-restart submission appends no Attempt and triggers no
History Sink write. -/
theorem c10_restart_keeps_last_logged :
    (∀ (s : SessionState) (src : Except String String),
        (restartStepFull s src).1.last_logged = s.last_logged) ∧
    c10Pre.history_list.length = 1 ∧
    c10Post.last_logged = dedupKey c10Post ∧
    c10Post.history_list = [] ∧
    (submitStepFull c10Post ("14") none ("t2")).1.history_list = [] ∧
    (submitStepFull c10Post ("14") none ("t2")).2.2 = none := by
  refine ⟨fun s src => gnq_last_logged _ _, rfl, rfl, rfl, rfl, rfl⟩

end MathTest
